import Mathlib

/-!
Verification of the early-errors subsystem of the jsparagus ECMAScript
parser (crates/generated_parser/src/early_errors.rs and
crates/generated_parser/src/early_error_checker.rs).

The Rust code is embedded shallowly:
  * `HashMap<Name, DeclarationInfo>` becomes an association list with
    `getName`/`insertName` mirroring `HashMap::get`/`HashMap::insert`;
  * every `declare_*` method taking `&mut self` becomes a pure function
    returning the pair (result, updated context), where an early
    `return Err(..)` in the source corresponds to returning the error
    together with the context exactly as mutated up to that point;
  * `usize` offsets become `Nat`, interned `Name` references become
    `String`.
-/

-- ===========================================================================
-- DeclarationKind (crates/generated_parser, declaration_kind)
-- The closed enumeration of binding kinds used by the rule contexts.
-- ===========================================================================

inductive DeclarationKind where
  | Var
  | Let
  | Const
  | Class
  | LexicalFunction
  | LexicalAsyncOrGenerator
  | BodyLevelFunction
  | FormalParameter
  | CatchParameter
  | Import
  | VarForAnnexBLexicalFunction
  deriving DecidableEq, Repr

-- ===========================================================================
-- ParseError (the subset of variants produced by the embedded code)
-- ===========================================================================

inductive ParseError where
  | NotImplemented (message : String)
  | DuplicateBinding (name : String) (kind1 : DeclarationKind) (offset1 : Nat)
      (kind2 : DeclarationKind) (offset2 : Nat)
  | InvalidIdentifier (name : String) (offset : Nat)
  | DuplicateExport (name : String) (offset1 : Nat) (offset2 : Nat)
  | MissingExport (name : String) (offset : Nat)
  | InvalidParameter
  | ObjectPatternWithMethod
  | ObjectPatternWithNonFinalRest
  | ObjectBindingPatternWithInvalidRest
  | ArrayPatternWithNonFinalRest
  | ArrayBindingPatternWithInvalidRest
  deriving DecidableEq, Repr

/-- `Result<(), ParseError>` from the source. -/
abbrev EarlyErrorsResult := Except ParseError Unit

-- ===========================================================================
-- DeclarationInfo and the name tables (early_errors.rs lines 11-21)
-- ===========================================================================

structure DeclarationInfo where
  kind : DeclarationKind
  offset : Nat
  deriving DecidableEq, Repr

/-- `HashMap<Name, DeclarationInfo>` modelled as an association list. -/
abbrev NameMap := List (String × DeclarationInfo)

/-- `HashMap::get`. -/
def getName (m : NameMap) (name : String) : Option DeclarationInfo :=
  match m with
  | [] => none
  | (k, v) :: rest => if k = name then some v else getName rest name

/-- `HashMap::insert` (replaces an existing entry for the key). -/
def insertName (m : NameMap) (name : String) (info : DeclarationInfo) : NameMap :=
  match m with
  | [] => [(name, info)]
  | (k, v) :: rest =>
      if k = name then (name, info) :: rest else (k, v) :: insertName rest name info

/-- `HashMap<Name, usize>` (export-name tables of ModuleEarlyErrorsContext). -/
abbrev OffsetMap := List (String × Nat)

/-- `HashMap::get` on an offset table. -/
def getOffset (m : OffsetMap) (name : String) : Option Nat :=
  match m with
  | [] => none
  | (k, v) :: rest => if k = name then some v else getOffset rest name

/-- `HashMap::insert` on an offset table. -/
def insertOffset (m : OffsetMap) (name : String) (offset : Nat) : OffsetMap :=
  match m with
  | [] => [(name, offset)]
  | (k, v) :: rest =>
      if k = name then (name, offset) :: rest else (k, v) :: insertOffset rest name offset

-- ===========================================================================
-- BlockEarlyErrorsContext (early_errors.rs lines 345-653)
-- ===========================================================================

structure BlockEarlyErrorsContext where
  lex_names_of_stmt_list : NameMap
  var_names_of_stmt_list : NameMap
  deriving DecidableEq, Repr

def BlockEarlyErrorsContext.new : BlockEarlyErrorsContext :=
  { lex_names_of_stmt_list := [], var_names_of_stmt_list := [] }

/-- early_errors.rs lines 547-551: the strict-mode query is stubbed. -/
def BlockEarlyErrorsContext.is_strict (_ctx : BlockEarlyErrorsContext) :
    Except ParseError Bool :=
  Except.error (ParseError.NotImplemented
    "strict-mode-only early error is not yet supported")

/-- early_errors.rs lines 555-618. The `?` on `is_strict()` propagates its
error before the declaration kinds are compared. -/
def BlockEarlyErrorsContext.declare_lex (ctx : BlockEarlyErrorsContext)
    (name : String) (kind : DeclarationKind) (offset : Nat) :
    EarlyErrorsResult × BlockEarlyErrorsContext :=
  let rest : Unit → EarlyErrorsResult × BlockEarlyErrorsContext := fun _ =>
    match getName ctx.var_names_of_stmt_list name with
    | some info =>
        (Except.error
          (ParseError.DuplicateBinding name info.kind info.offset kind offset), ctx)
    | none =>
        (Except.ok (),
          { ctx with lex_names_of_stmt_list :=
              insertName ctx.lex_names_of_stmt_list name (DeclarationInfo.mk kind offset) })
  match getName ctx.lex_names_of_stmt_list name with
  | some info =>
      match ctx.is_strict with
      | Except.error e => (Except.error e, ctx)
      | Except.ok strict =>
          if !(!strict && info.kind == DeclarationKind.LexicalFunction
                && kind == DeclarationKind.LexicalFunction) then
            (Except.error
              (ParseError.DuplicateBinding name info.kind info.offset kind offset), ctx)
          else
            rest ()
  | none => rest ()

/-- early_errors.rs lines 621-653. -/
def BlockEarlyErrorsContext.declare_var (ctx : BlockEarlyErrorsContext)
    (name : String) (kind : DeclarationKind) (offset : Nat) :
    EarlyErrorsResult × BlockEarlyErrorsContext :=
  match getName ctx.lex_names_of_stmt_list name with
  | some info =>
      (Except.error
        (ParseError.DuplicateBinding name info.kind info.offset kind offset), ctx)
  | none =>
      (Except.ok (),
        { ctx with var_names_of_stmt_list :=
            insertName ctx.var_names_of_stmt_list name (DeclarationInfo.mk kind offset) })

-- ===========================================================================
-- ScriptEarlyErrorsContext (early_errors.rs lines 1752-1886)
-- ===========================================================================

structure ScriptEarlyErrorsContext where
  lex_names_of_body : NameMap
  var_names_of_body : NameMap
  deriving DecidableEq, Repr

def ScriptEarlyErrorsContext.new : ScriptEarlyErrorsContext :=
  { lex_names_of_body := [], var_names_of_body := [] }

/-- early_errors.rs lines 1805-1853. -/
def ScriptEarlyErrorsContext.declare_lex (ctx : ScriptEarlyErrorsContext)
    (name : String) (kind : DeclarationKind) (offset : Nat) :
    EarlyErrorsResult × ScriptEarlyErrorsContext :=
  match getName ctx.lex_names_of_body name with
  | some info =>
      (Except.error
        (ParseError.DuplicateBinding name info.kind info.offset kind offset), ctx)
  | none =>
      match getName ctx.var_names_of_body name with
      | some info =>
          (Except.error
            (ParseError.DuplicateBinding name info.kind info.offset kind offset), ctx)
      | none =>
          (Except.ok (),
            { ctx with lex_names_of_body :=
                insertName ctx.lex_names_of_body name (DeclarationInfo.mk kind offset) })

/-- early_errors.rs lines 1855-1886. -/
def ScriptEarlyErrorsContext.declare_var (ctx : ScriptEarlyErrorsContext)
    (name : String) (kind : DeclarationKind) (offset : Nat) :
    EarlyErrorsResult × ScriptEarlyErrorsContext :=
  match getName ctx.lex_names_of_body name with
  | some info =>
      (Except.error
        (ParseError.DuplicateBinding name info.kind info.offset kind offset), ctx)
  | none =>
      (Except.ok (),
        { ctx with var_names_of_body :=
            insertName ctx.var_names_of_body name (DeclarationInfo.mk kind offset) })

-- ===========================================================================
-- LexicalForHeadEarlyErrorsContext and the for-body contexts
-- (early_errors.rs lines 663-852)
-- ===========================================================================

structure LexicalForHeadEarlyErrorsContext where
  bound_names_of_decl : NameMap
  deriving DecidableEq, Repr

def LexicalForHeadEarlyErrorsContext.new : LexicalForHeadEarlyErrorsContext :=
  { bound_names_of_decl := [] }

/-- early_errors.rs lines 702-753. -/
def LexicalForHeadEarlyErrorsContext.declare_lex (ctx : LexicalForHeadEarlyErrorsContext)
    (name : String) (kind : DeclarationKind) (offset : Nat) :
    EarlyErrorsResult × LexicalForHeadEarlyErrorsContext :=
  match getName ctx.bound_names_of_decl name with
  | some info =>
      (Except.error
        (ParseError.DuplicateBinding name info.kind info.offset kind offset), ctx)
  | none =>
      (Except.ok (),
        { ctx with bound_names_of_decl :=
            insertName ctx.bound_names_of_decl name (DeclarationInfo.mk kind offset) })

structure InternalForBodyEarlyErrorsContext where
  var_names_of_stmt : NameMap
  deriving DecidableEq, Repr

def InternalForBodyEarlyErrorsContext.new : InternalForBodyEarlyErrorsContext :=
  { var_names_of_stmt := [] }

/-- early_errors.rs lines 779-793: unconditionally records the var name. -/
def InternalForBodyEarlyErrorsContext.declare_var (ctx : InternalForBodyEarlyErrorsContext)
    (name : String) (kind : DeclarationKind) (offset : Nat) :
    EarlyErrorsResult × InternalForBodyEarlyErrorsContext :=
  (Except.ok (),
    { ctx with var_names_of_stmt :=
        insertName ctx.var_names_of_stmt name (DeclarationInfo.mk kind offset) })

structure LexicalForBodyEarlyErrorsContext where
  head : LexicalForHeadEarlyErrorsContext
  body : InternalForBodyEarlyErrorsContext
  deriving DecidableEq, Repr

def LexicalForBodyEarlyErrorsContext.new (head : LexicalForHeadEarlyErrorsContext) :
    LexicalForBodyEarlyErrorsContext :=
  { head := head, body := InternalForBodyEarlyErrorsContext.new }

/-- early_errors.rs lines 810-852. -/
def LexicalForBodyEarlyErrorsContext.declare_var (ctx : LexicalForBodyEarlyErrorsContext)
    (name : String) (kind : DeclarationKind) (offset : Nat) :
    EarlyErrorsResult × LexicalForBodyEarlyErrorsContext :=
  match getName ctx.head.bound_names_of_decl name with
  | some info =>
      (Except.error
        (ParseError.DuplicateBinding name info.kind info.offset kind offset), ctx)
  | none =>
      let r := ctx.body.declare_var name kind offset
      (r.fst, { ctx with body := r.snd })

-- ===========================================================================
-- CaseBlockEarlyErrorsContext (early_errors.rs lines 859-985)
-- ===========================================================================

structure CaseBlockEarlyErrorsContext where
  lex_names_of_case_block : NameMap
  var_names_of_case_block : NameMap
  deriving DecidableEq, Repr

def CaseBlockEarlyErrorsContext.new : CaseBlockEarlyErrorsContext :=
  { lex_names_of_case_block := [], var_names_of_case_block := [] }

/-- early_errors.rs lines 883-887: the strict-mode query is stubbed. -/
def CaseBlockEarlyErrorsContext.is_strict (_ctx : CaseBlockEarlyErrorsContext) :
    Except ParseError Bool :=
  Except.error (ParseError.NotImplemented
    "strict-mode-only early error is not yet supported")

/-- early_errors.rs lines 890-952. -/
def CaseBlockEarlyErrorsContext.declare_lex (ctx : CaseBlockEarlyErrorsContext)
    (name : String) (kind : DeclarationKind) (offset : Nat) :
    EarlyErrorsResult × CaseBlockEarlyErrorsContext :=
  let rest : Unit → EarlyErrorsResult × CaseBlockEarlyErrorsContext := fun _ =>
    match getName ctx.var_names_of_case_block name with
    | some info =>
        (Except.error
          (ParseError.DuplicateBinding name info.kind info.offset kind offset), ctx)
    | none =>
        (Except.ok (),
          { ctx with lex_names_of_case_block :=
              insertName ctx.lex_names_of_case_block name (DeclarationInfo.mk kind offset) })
  match getName ctx.lex_names_of_case_block name with
  | some info =>
      match ctx.is_strict with
      | Except.error e => (Except.error e, ctx)
      | Except.ok strict =>
          if !(!strict && info.kind == DeclarationKind.LexicalFunction
                && kind == DeclarationKind.LexicalFunction) then
            (Except.error
              (ParseError.DuplicateBinding name info.kind info.offset kind offset), ctx)
          else
            rest ()
  | none => rest ()

/-- early_errors.rs lines 954-985. -/
def CaseBlockEarlyErrorsContext.declare_var (ctx : CaseBlockEarlyErrorsContext)
    (name : String) (kind : DeclarationKind) (offset : Nat) :
    EarlyErrorsResult × CaseBlockEarlyErrorsContext :=
  match getName ctx.lex_names_of_case_block name with
  | some info =>
      (Except.error
        (ParseError.DuplicateBinding name info.kind info.offset kind offset), ctx)
  | none =>
      (Except.ok (),
        { ctx with var_names_of_case_block :=
            insertName ctx.var_names_of_case_block name (DeclarationInfo.mk kind offset) })

-- ===========================================================================
-- Catch contexts (early_errors.rs lines 992-1126)
-- ===========================================================================

structure CatchParameterEarlyErrorsContext where
  bound_names_of_catch_param : NameMap
  is_simple : Bool
  deriving DecidableEq, Repr

/-- early_errors.rs lines 999-1004. -/
def CatchParameterEarlyErrorsContext.new_with_binding_identifier :
    CatchParameterEarlyErrorsContext :=
  { bound_names_of_catch_param := [], is_simple := true }

/-- early_errors.rs lines 1006-1011. -/
def CatchParameterEarlyErrorsContext.new_with_binding_pattern :
    CatchParameterEarlyErrorsContext :=
  { bound_names_of_catch_param := [], is_simple := false }

/-- early_errors.rs lines 1015-1043. NOTE: the source passes the fresh
`offset` in both offset slots of the DuplicateBinding error (the stored
`info.offset` is fetched but not reported). -/
def CatchParameterEarlyErrorsContext.declare (ctx : CatchParameterEarlyErrorsContext)
    (name : String) (offset : Nat) :
    EarlyErrorsResult × CatchParameterEarlyErrorsContext :=
  let kind := DeclarationKind.CatchParameter
  match getName ctx.bound_names_of_catch_param name with
  | some info =>
      (Except.error
        (ParseError.DuplicateBinding name info.kind offset kind offset), ctx)
  | none =>
      (Except.ok (),
        { ctx with bound_names_of_catch_param :=
            insertName ctx.bound_names_of_catch_param name (DeclarationInfo.mk kind offset) })

structure CatchBlockEarlyErrorsContext where
  param : CatchParameterEarlyErrorsContext
  block : BlockEarlyErrorsContext
  deriving DecidableEq, Repr

def CatchBlockEarlyErrorsContext.new (param : CatchParameterEarlyErrorsContext) :
    CatchBlockEarlyErrorsContext :=
  { param := param, block := BlockEarlyErrorsContext.new }

/-- early_errors.rs lines 1061-1087. NOTE: as in
CatchParameterEarlyErrorsContext.declare, the source passes the fresh
`offset` in both offset slots of the DuplicateBinding error. -/
def CatchBlockEarlyErrorsContext.declare_lex (ctx : CatchBlockEarlyErrorsContext)
    (name : String) (kind : DeclarationKind) (offset : Nat) :
    EarlyErrorsResult × CatchBlockEarlyErrorsContext :=
  match getName ctx.param.bound_names_of_catch_param name with
  | some info =>
      (Except.error
        (ParseError.DuplicateBinding name info.kind offset kind offset), ctx)
  | none =>
      let r := ctx.block.declare_lex name kind offset
      (r.fst, { ctx with block := r.snd })

/-- early_errors.rs lines 1089-1126. -/
def CatchBlockEarlyErrorsContext.declare_var (ctx : CatchBlockEarlyErrorsContext)
    (name : String) (kind : DeclarationKind) (offset : Nat) :
    EarlyErrorsResult × CatchBlockEarlyErrorsContext :=
  let rest : Unit → EarlyErrorsResult × CatchBlockEarlyErrorsContext := fun _ =>
    let r := ctx.block.declare_var name kind offset
    (r.fst, { ctx with block := r.snd })
  match getName ctx.param.bound_names_of_catch_param name with
  | some info =>
      if !ctx.param.is_simple then
        (Except.error
          (ParseError.DuplicateBinding name info.kind info.offset kind offset), ctx)
      else
        rest ()
  | none => rest ()

-- ===========================================================================
-- Formal-parameter contexts (early_errors.rs lines 1151-1277)
-- ===========================================================================

structure FormalParametersEarlyErrorsContext where
  bound_names_of_params : NameMap
  is_simple : Bool
  deriving DecidableEq, Repr

/-- early_errors.rs lines 1158-1163. -/
def FormalParametersEarlyErrorsContext.new_simple : FormalParametersEarlyErrorsContext :=
  { bound_names_of_params := [], is_simple := true }

/-- early_errors.rs lines 1165-1170. -/
def FormalParametersEarlyErrorsContext.new_non_simple : FormalParametersEarlyErrorsContext :=
  { bound_names_of_params := [], is_simple := false }

/-- early_errors.rs lines 1173-1223. -/
def FormalParametersEarlyErrorsContext.declare (ctx : FormalParametersEarlyErrorsContext)
    (name : String) (offset : Nat) :
    EarlyErrorsResult × FormalParametersEarlyErrorsContext :=
  let kind := DeclarationKind.FormalParameter
  let rest : Unit → EarlyErrorsResult × FormalParametersEarlyErrorsContext := fun _ =>
    (Except.ok (),
      { ctx with bound_names_of_params :=
          insertName ctx.bound_names_of_params name (DeclarationInfo.mk kind offset) })
  match getName ctx.bound_names_of_params name with
  | some info =>
      if !ctx.is_simple then
        (Except.error
          (ParseError.DuplicateBinding name info.kind info.offset kind offset), ctx)
      else
        rest ()
  | none => rest ()

structure UniqueFormalParametersEarlyErrorsContext where
  bound_names_of_params : NameMap
  deriving DecidableEq, Repr

def UniqueFormalParametersEarlyErrorsContext.new :
    UniqueFormalParametersEarlyErrorsContext :=
  { bound_names_of_params := [] }

/-- early_errors.rs lines 1239-1277. -/
def UniqueFormalParametersEarlyErrorsContext.declare
    (ctx : UniqueFormalParametersEarlyErrorsContext) (name : String) (offset : Nat) :
    EarlyErrorsResult × UniqueFormalParametersEarlyErrorsContext :=
  let kind := DeclarationKind.FormalParameter
  match getName ctx.bound_names_of_params name with
  | some info =>
      (Except.error
        (ParseError.DuplicateBinding name info.kind info.offset kind offset), ctx)
  | none =>
      (Except.ok (),
        { ctx with bound_names_of_params :=
            insertName ctx.bound_names_of_params name (DeclarationInfo.mk kind offset) })

-- ===========================================================================
-- Function-body contexts (early_errors.rs lines 1280-1745)
-- ===========================================================================

structure InternalFunctionBodyEarlyErrorsContext where
  lex_names_of_body : NameMap
  var_names_of_body : NameMap
  deriving DecidableEq, Repr

def InternalFunctionBodyEarlyErrorsContext.new : InternalFunctionBodyEarlyErrorsContext :=
  { lex_names_of_body := [], var_names_of_body := [] }

/-- early_errors.rs lines 1393-1441. -/
def InternalFunctionBodyEarlyErrorsContext.declare_lex
    (ctx : InternalFunctionBodyEarlyErrorsContext)
    (name : String) (kind : DeclarationKind) (offset : Nat) :
    EarlyErrorsResult × InternalFunctionBodyEarlyErrorsContext :=
  match getName ctx.lex_names_of_body name with
  | some info =>
      (Except.error
        (ParseError.DuplicateBinding name info.kind info.offset kind offset), ctx)
  | none =>
      match getName ctx.var_names_of_body name with
      | some info =>
          (Except.error
            (ParseError.DuplicateBinding name info.kind info.offset kind offset), ctx)
      | none =>
          (Except.ok (),
            { ctx with lex_names_of_body :=
                insertName ctx.lex_names_of_body name (DeclarationInfo.mk kind offset) })

/-- early_errors.rs lines 1444-1476. -/
def InternalFunctionBodyEarlyErrorsContext.declare_var
    (ctx : InternalFunctionBodyEarlyErrorsContext)
    (name : String) (kind : DeclarationKind) (offset : Nat) :
    EarlyErrorsResult × InternalFunctionBodyEarlyErrorsContext :=
  match getName ctx.lex_names_of_body name with
  | some info =>
      (Except.error
        (ParseError.DuplicateBinding name info.kind info.offset kind offset), ctx)
  | none =>
      (Except.ok (),
        { ctx with var_names_of_body :=
            insertName ctx.var_names_of_body name (DeclarationInfo.mk kind offset) })

structure FunctionBodyEarlyErrorsContext where
  param : FormalParametersEarlyErrorsContext
  body : InternalFunctionBodyEarlyErrorsContext
  deriving DecidableEq, Repr

def FunctionBodyEarlyErrorsContext.new (param : FormalParametersEarlyErrorsContext) :
    FunctionBodyEarlyErrorsContext :=
  { param := param, body := InternalFunctionBodyEarlyErrorsContext.new }

/-- early_errors.rs lines 1505-1593: a parameter-name collision is reported
before delegating to the body context. -/
def FunctionBodyEarlyErrorsContext.declare_lex (ctx : FunctionBodyEarlyErrorsContext)
    (name : String) (kind : DeclarationKind) (offset : Nat) :
    EarlyErrorsResult × FunctionBodyEarlyErrorsContext :=
  match getName ctx.param.bound_names_of_params name with
  | some info =>
      (Except.error
        (ParseError.DuplicateBinding name info.kind info.offset kind offset), ctx)
  | none =>
      let r := ctx.body.declare_lex name kind offset
      (r.fst, { ctx with body := r.snd })

/-- early_errors.rs lines 1595-1604: delegates to the body context only. -/
def FunctionBodyEarlyErrorsContext.declare_var (ctx : FunctionBodyEarlyErrorsContext)
    (name : String) (kind : DeclarationKind) (offset : Nat) :
    EarlyErrorsResult × FunctionBodyEarlyErrorsContext :=
  let r := ctx.body.declare_var name kind offset
  (r.fst, { ctx with body := r.snd })

structure UniqueFunctionBodyEarlyErrorsContext where
  param : UniqueFormalParametersEarlyErrorsContext
  body : InternalFunctionBodyEarlyErrorsContext
  deriving DecidableEq, Repr

def UniqueFunctionBodyEarlyErrorsContext.new
    (param : UniqueFormalParametersEarlyErrorsContext) :
    UniqueFunctionBodyEarlyErrorsContext :=
  { param := param, body := InternalFunctionBodyEarlyErrorsContext.new }

/-- early_errors.rs lines 1632-1734. -/
def UniqueFunctionBodyEarlyErrorsContext.declare_lex
    (ctx : UniqueFunctionBodyEarlyErrorsContext)
    (name : String) (kind : DeclarationKind) (offset : Nat) :
    EarlyErrorsResult × UniqueFunctionBodyEarlyErrorsContext :=
  match getName ctx.param.bound_names_of_params name with
  | some info =>
      (Except.error
        (ParseError.DuplicateBinding name info.kind info.offset kind offset), ctx)
  | none =>
      let r := ctx.body.declare_lex name kind offset
      (r.fst, { ctx with body := r.snd })

/-- early_errors.rs lines 1736-1745: delegates to the body context only. -/
def UniqueFunctionBodyEarlyErrorsContext.declare_var
    (ctx : UniqueFunctionBodyEarlyErrorsContext)
    (name : String) (kind : DeclarationKind) (offset : Nat) :
    EarlyErrorsResult × UniqueFunctionBodyEarlyErrorsContext :=
  let r := ctx.body.declare_var name kind offset
  (r.fst, { ctx with body := r.snd })

-- ===========================================================================
-- ModuleEarlyErrorsContext (early_errors.rs lines 1893-2133)
-- ===========================================================================

structure ModuleEarlyErrorsContext where
  lex_names_of_item_list : NameMap
  var_names_of_item_list : NameMap
  exported_names_of_item_list : OffsetMap
  exported_bindings_of_item_list : OffsetMap
  deriving DecidableEq, Repr

def ModuleEarlyErrorsContext.new : ModuleEarlyErrorsContext :=
  { lex_names_of_item_list := [], var_names_of_item_list := [],
    exported_names_of_item_list := [], exported_bindings_of_item_list := [] }

/-- early_errors.rs lines 1986-2010. -/
def ModuleEarlyErrorsContext.add_exported_name (ctx : ModuleEarlyErrorsContext)
    (name : String) (offset : Nat) :
    EarlyErrorsResult × ModuleEarlyErrorsContext :=
  match getOffset ctx.exported_names_of_item_list name with
  | some prev_offset =>
      (Except.error (ParseError.DuplicateExport name prev_offset offset), ctx)
  | none =>
      (Except.ok (),
        { ctx with exported_names_of_item_list :=
            insertOffset ctx.exported_names_of_item_list name offset })

/-- early_errors.rs lines 2039-2098. -/
def ModuleEarlyErrorsContext.declare_lex (ctx : ModuleEarlyErrorsContext)
    (name : String) (kind : DeclarationKind) (offset : Nat) :
    EarlyErrorsResult × ModuleEarlyErrorsContext :=
  match getName ctx.lex_names_of_item_list name with
  | some info =>
      (Except.error
        (ParseError.DuplicateBinding name info.kind info.offset kind offset), ctx)
  | none =>
      match getName ctx.var_names_of_item_list name with
      | some info =>
          (Except.error
            (ParseError.DuplicateBinding name info.kind info.offset kind offset), ctx)
      | none =>
          (Except.ok (),
            { ctx with lex_names_of_item_list :=
                insertName ctx.lex_names_of_item_list name (DeclarationInfo.mk kind offset) })

/-- early_errors.rs lines 2101-2132. -/
def ModuleEarlyErrorsContext.declare_var (ctx : ModuleEarlyErrorsContext)
    (name : String) (kind : DeclarationKind) (offset : Nat) :
    EarlyErrorsResult × ModuleEarlyErrorsContext :=
  match getName ctx.lex_names_of_item_list name with
  | some info =>
      (Except.error
        (ParseError.DuplicateBinding name info.kind info.offset kind offset), ctx)
  | none =>
      (Except.ok (),
        { ctx with var_names_of_item_list :=
            insertName ctx.var_names_of_item_list name (DeclarationInfo.mk kind offset) })

-- ===========================================================================
-- Identifiers (early_errors.rs lines 52-338)
-- ===========================================================================

/-- The terminal classifications distinguished by
IdentifierEarlyErrorsContext; every other TerminalId variant behaves like
OtherTerminal (the `_` arms of the source matches). -/
inductive TerminalId where
  | Name
  | NameWithEscape
  | Yield
  | Await
  | Implements
  | Interface
  | Let
  | Package
  | Private
  | Protected
  | Public
  | Static
  | OtherTerminal
  deriving DecidableEq, Repr

structure Token where
  terminal_id : TerminalId
  value : Option String
  loc_start : Nat
  deriving DecidableEq, Repr

/-- `token.value.unwrap()`: tokens inspected by the identifier checks are
produced by the lexer with a value; `unwrap` panics on None in the source,
modelled totally with a default. -/
def tokenValue (token : Token) : String :=
  token.value.getD ""

structure IdentifierEarlyErrorsContext where
  deriving DecidableEq, Repr

def IdentifierEarlyErrorsContext.new : IdentifierEarlyErrorsContext := {}

/-- early_errors.rs lines 64-68: the strict-mode query is stubbed. -/
def IdentifierEarlyErrorsContext.is_strict (_ctx : IdentifierEarlyErrorsContext) :
    Except ParseError Bool :=
  Except.error (ParseError.NotImplemented
    "strict-mode-only early error is not yet supported")

/-- early_errors.rs lines 79-83. -/
def IdentifierEarlyErrorsContext.is_arguments_identifier (token : Token) : Bool :=
  (token.terminal_id == TerminalId.Name || token.terminal_id == TerminalId.NameWithEscape)
    && tokenValue token == "arguments"

/-- early_errors.rs lines 85-89. -/
def IdentifierEarlyErrorsContext.is_eval_identifier (token : Token) : Bool :=
  (token.terminal_id == TerminalId.Name || token.terminal_id == TerminalId.NameWithEscape)
    && tokenValue token == "eval"

/-- early_errors.rs lines 91-95. -/
def IdentifierEarlyErrorsContext.is_yield_identifier (token : Token) : Bool :=
  token.terminal_id == TerminalId.Yield
    || (token.terminal_id == TerminalId.NameWithEscape && tokenValue token == "yield")

/-- early_errors.rs lines 97-101. -/
def IdentifierEarlyErrorsContext.is_await_identifier (token : Token) : Bool :=
  token.terminal_id == TerminalId.Await
    || (token.terminal_id == TerminalId.NameWithEscape && tokenValue token == "await")

/-- The strict-mode-only reserved words of early_errors.rs lines 274-275. -/
def isStrictReservedName (name : String) : Bool :=
  name == "implements" || name == "interface" || name == "let" || name == "package"
    || name == "private" || name == "protected" || name == "public" || name == "static"

/-- The unconditional reserved words of early_errors.rs lines 293-297. -/
def isReservedWordName (name : String) : Bool :=
  name == "break" || name == "case" || name == "catch" || name == "class"
    || name == "const" || name == "continue" || name == "debugger" || name == "default"
    || name == "delete" || name == "do" || name == "else" || name == "enum"
    || name == "export" || name == "extends" || name == "false" || name == "finally"
    || name == "for" || name == "function" || name == "if" || name == "import"
    || name == "in" || name == "instanceof" || name == "new" || name == "null"
    || name == "return" || name == "super" || name == "switch" || name == "this"
    || name == "throw" || name == "true" || name == "try" || name == "typeof"
    || name == "var" || name == "void" || name == "while" || name == "with"

/-- Whether the terminal is one of the strict-mode-only reserved-word
terminals of early_errors.rs lines 311-318. -/
def isStrictReservedTerminal (id : TerminalId) : Bool :=
  match id with
  | TerminalId.Implements | TerminalId.Interface | TerminalId.Let | TerminalId.Package
  | TerminalId.Private | TerminalId.Protected | TerminalId.Public | TerminalId.Static => true
  | _ => false

/-- early_errors.rs lines 266-337. -/
def IdentifierEarlyErrorsContext.check_identifier (ctx : IdentifierEarlyErrorsContext)
    (token : Token) : EarlyErrorsResult :=
  if token.terminal_id == TerminalId.NameWithEscape then
    let name := tokenValue token
    if isStrictReservedName name then
      match ctx.is_strict with
      | Except.error e => Except.error e
      | Except.ok strict =>
          if strict then
            Except.error (ParseError.InvalidIdentifier name token.loc_start)
          else
            Except.ok ()
    else if isReservedWordName name then
      Except.error (ParseError.InvalidIdentifier name token.loc_start)
    else
      Except.ok ()
  else if isStrictReservedTerminal token.terminal_id then
    match ctx.is_strict with
    | Except.error e => Except.error e
    | Except.ok strict =>
        if strict then
          Except.error (ParseError.InvalidIdentifier (tokenValue token) token.loc_start)
        else
          Except.ok ()
  else
    Except.ok ()

/-- early_errors.rs lines 178-221. -/
def IdentifierEarlyErrorsContext.check_yield_common (_ctx : IdentifierEarlyErrorsContext)
    (_token : Token) : EarlyErrorsResult :=
  Except.error (ParseError.NotImplemented "[Yield] parameter")

/-- early_errors.rs lines 223-264. -/
def IdentifierEarlyErrorsContext.check_await_common (_ctx : IdentifierEarlyErrorsContext)
    (_token : Token) : EarlyErrorsResult :=
  Except.error (ParseError.NotImplemented "[Await] parameter")

/-- early_errors.rs lines 103-146. For an "arguments"/"eval" binding
identifier, `self.is_strict()?` propagates the stubbed NotImplemented error
before either Ok or InvalidIdentifier can be reached. -/
def IdentifierEarlyErrorsContext.check_binding_identifier
    (ctx : IdentifierEarlyErrorsContext) (token : Token) : EarlyErrorsResult :=
  if IdentifierEarlyErrorsContext.is_arguments_identifier token
      || IdentifierEarlyErrorsContext.is_eval_identifier token then
    match ctx.is_strict with
    | Except.error e => Except.error e
    | Except.ok strict =>
        if strict then
          Except.error (ParseError.InvalidIdentifier (tokenValue token) token.loc_start)
        else
          Except.ok ()
  else if IdentifierEarlyErrorsContext.is_yield_identifier token then
    Except.error (ParseError.NotImplemented "[Yield] parameter")
  else if IdentifierEarlyErrorsContext.is_await_identifier token then
    Except.error (ParseError.NotImplemented "[Await] parameter")
  else
    ctx.check_identifier token

-- ===========================================================================
-- Assignment-target refinement (early_error_checker.rs lines 891-1158)
--
-- The AST fragment below embeds exactly the constructors those functions
-- inspect; constructors whose payload the functions never read are
-- payload-free, and every variant matched only by a `_` arm is collapsed
-- into a single catch-all constructor. Nested `Vec`/`Option` payloads are
-- embedded as bespoke list/option inductives in the same mutual block so
-- that the refinement functions are structurally recursive.
-- ===========================================================================

mutual

inductive AssignmentTarget where
  | AssignmentTargetIdentifier : AssignmentTarget
  | MemberAssignmentTarget : AssignmentTarget
  | ArrayAssignmentTarget (elements : ArrayTargetElementList) (rest : AssignmentTargetOpt) :
      AssignmentTarget
  | ObjectAssignmentTarget (properties : AssignmentTargetPropertyList)
      (rest : AssignmentTargetOpt) : AssignmentTarget

inductive AssignmentTargetOpt where
  | none : AssignmentTargetOpt
  | some (target : AssignmentTarget) : AssignmentTargetOpt

inductive AssignmentTargetMaybeDefault where
  | Target (target : AssignmentTarget) : AssignmentTargetMaybeDefault
  | AssignmentTargetWithDefault (binding : AssignmentTarget) : AssignmentTargetMaybeDefault

inductive ArrayTargetElement where
  | Elision : ArrayTargetElement
  | Element (target : AssignmentTargetMaybeDefault) : ArrayTargetElement

inductive ArrayTargetElementList where
  | nil : ArrayTargetElementList
  | cons (head : ArrayTargetElement) (tail : ArrayTargetElementList) : ArrayTargetElementList

inductive AssignmentTargetProperty where
  | AssignmentTargetPropertyIdentifier : AssignmentTargetProperty
  | AssignmentTargetPropertyProperty (binding : AssignmentTargetMaybeDefault) :
      AssignmentTargetProperty

inductive AssignmentTargetPropertyList where
  | nil : AssignmentTargetPropertyList
  | cons (head : AssignmentTargetProperty) (tail : AssignmentTargetPropertyList) :
      AssignmentTargetPropertyList

end

mutual

inductive Expression where
  | IdentifierExpression : Expression
  | ArrayExpression (elements : ArrayExpressionElementList) : Expression
  | ObjectExpression (properties : ObjectPropertyList) : Expression
  | AssignmentExpression (binding : AssignmentTarget) : Expression
  | OtherExpression : Expression

inductive ArrayExpressionElement where
  | ExpressionElement (expr : Expression) : ArrayExpressionElement
  | SpreadElement (expr : Expression) : ArrayExpressionElement
  | Elision : ArrayExpressionElement

inductive ArrayExpressionElementList where
  | nil : ArrayExpressionElementList
  | cons (head : ArrayExpressionElement) (tail : ArrayExpressionElementList) :
      ArrayExpressionElementList

inductive ObjectProperty where
  | DataProperty (expression : Expression) : ObjectProperty
  | MethodDefinition : ObjectProperty
  | ShorthandProperty : ObjectProperty
  | SpreadProperty (expression : Expression) : ObjectProperty

inductive ObjectPropertyList where
  | nil : ObjectPropertyList
  | cons (head : ObjectProperty) (tail : ObjectPropertyList) : ObjectPropertyList

end

mutual

/-- early_error_checker.rs lines 1100-1158. -/
def assignment_target_to_binding : AssignmentTarget → EarlyErrorsResult
  | AssignmentTarget.AssignmentTargetIdentifier => Except.ok ()
  | AssignmentTarget.MemberAssignmentTarget => Except.error ParseError.InvalidParameter
  | AssignmentTarget.ArrayAssignmentTarget elements rest =>
      match array_target_elements_to_binding elements with
      | Except.error e => Except.error e
      | Except.ok () =>
          match rest with
          | AssignmentTargetOpt.none => Except.ok ()
          | AssignmentTargetOpt.some rest_target => assignment_target_to_binding rest_target
  | AssignmentTarget.ObjectAssignmentTarget properties rest =>
      match assignment_target_properties_to_binding properties with
      | Except.error e => Except.error e
      | Except.ok () =>
          match rest with
          | AssignmentTargetOpt.none => Except.ok ()
          | AssignmentTargetOpt.some rest_target =>
              assignment_rest_property_to_binding_identifier rest_target

/-- The element loop of early_error_checker.rs lines 1129-1133
(`collect_vec_from_results` over the array elements, short-circuiting at
the first error; a None element is an elision hole). -/
def array_target_elements_to_binding : ArrayTargetElementList → EarlyErrorsResult
  | ArrayTargetElementList.nil => Except.ok ()
  | ArrayTargetElementList.cons ArrayTargetElement.Elision tail =>
      array_target_elements_to_binding tail
  | ArrayTargetElementList.cons (ArrayTargetElement.Element target) tail =>
      match assignment_target_maybe_default_to_binding target with
      | Except.error e => Except.error e
      | Except.ok () => array_target_elements_to_binding tail

/-- early_error_checker.rs lines 1038-1049. -/
def assignment_target_maybe_default_to_binding :
    AssignmentTargetMaybeDefault → EarlyErrorsResult
  | AssignmentTargetMaybeDefault.Target target => assignment_target_to_binding target
  | AssignmentTargetMaybeDefault.AssignmentTargetWithDefault binding =>
      assignment_target_to_binding binding

/-- The property loop of early_error_checker.rs lines 1148-1150
(`collect_vec_from_results` over the object-target properties). -/
def assignment_target_properties_to_binding :
    AssignmentTargetPropertyList → EarlyErrorsResult
  | AssignmentTargetPropertyList.nil => Except.ok ()
  | AssignmentTargetPropertyList.cons p tail =>
      match assignment_target_property_to_binding_property p with
      | Except.error e => Except.error e
      | Except.ok () => assignment_target_properties_to_binding tail

/-- early_error_checker.rs lines 1051-1067. -/
def assignment_target_property_to_binding_property :
    AssignmentTargetProperty → EarlyErrorsResult
  | AssignmentTargetProperty.AssignmentTargetPropertyIdentifier => Except.ok ()
  | AssignmentTargetProperty.AssignmentTargetPropertyProperty binding =>
      assignment_target_maybe_default_to_binding binding

/-- early_error_checker.rs lines 1070-1083. -/
def assignment_rest_property_to_binding_identifier : AssignmentTarget → EarlyErrorsResult
  | AssignmentTarget.AssignmentTargetIdentifier => Except.ok ()
  | _ => Except.error ParseError.ObjectBindingPatternWithInvalidRest

end

mutual

/-- early_error_checker.rs lines 1008-1020. -/
def expression_to_parameter : Expression → EarlyErrorsResult
  | Expression.AssignmentExpression binding => assignment_target_to_binding binding
  | other => expression_to_binding_no_default other

/-- early_error_checker.rs lines 936-969. The `split_last` traversal of an
array expression checks the leading elements with the closure of lines
947-955 and then inspects only a trailing spread element; a non-spread
final element is not refined. -/
def expression_to_binding_no_default : Expression → EarlyErrorsResult
  | Expression.IdentifierExpression => Except.ok ()
  | Expression.ArrayExpression elements => array_expression_elements_to_binding elements
  | Expression.ObjectExpression properties => object_expression_to_object_binding properties
  | _ => Except.error ParseError.InvalidParameter

/-- The closure of early_error_checker.rs lines 947-954, applied to every
array element before the last one: a spread element in non-final position
is ArrayPatternWithNonFinalRest. -/
def array_init_element_to_parameter : ArrayExpressionElement → EarlyErrorsResult
  | ArrayExpressionElement.ExpressionElement expr => expression_to_parameter expr
  | ArrayExpressionElement.SpreadElement _ =>
      Except.error ParseError.ArrayPatternWithNonFinalRest
  | ArrayExpressionElement.Elision => Except.ok ()

/-- The `split_last` traversal of early_error_checker.rs lines 946-961: all
but the last element go through the closure (left to right, short-circuit),
and the last element is refined only when it is a spread element. -/
def array_expression_elements_to_binding : ArrayExpressionElementList → EarlyErrorsResult
  | ArrayExpressionElementList.nil => Except.ok ()
  | ArrayExpressionElementList.cons e ArrayExpressionElementList.nil =>
      match e with
      | ArrayExpressionElement.SpreadElement rest => expression_to_parameter_array rest
      | _ => Except.ok ()
  | ArrayExpressionElementList.cons e (ArrayExpressionElementList.cons f tail) =>
      match array_init_element_to_parameter e with
      | Except.error err => Except.error err
      | Except.ok () =>
          array_expression_elements_to_binding (ArrayExpressionElementList.cons f tail)

/-- early_error_checker.rs lines 971-988. -/
def expression_to_parameter_array : Expression → EarlyErrorsResult
  | Expression.AssignmentExpression binding =>
      match assignment_target_to_binding binding with
      | Except.error e => Except.error e
      | Except.ok () => Except.error ParseError.ArrayBindingPatternWithInvalidRest
  | other => expression_to_binding_no_default other

/-- early_error_checker.rs lines 891-920. -/
def object_property_to_binding_property : ObjectProperty → EarlyErrorsResult
  | ObjectProperty.DataProperty expression => expression_to_parameter expression
  | ObjectProperty.MethodDefinition => Except.error ParseError.ObjectPatternWithMethod
  | ObjectProperty.ShorthandProperty => Except.ok ()
  | ObjectProperty.SpreadProperty _ => Except.error ParseError.ObjectPatternWithNonFinalRest

/-- early_error_checker.rs lines 924-934. -/
def spread_expression_to_rest_binding : Expression → EarlyErrorsResult
  | Expression.IdentifierExpression => Except.ok ()
  | _ => Except.error ParseError.ObjectBindingPatternWithInvalidRest

/-- The `split_last` traversal of early_error_checker.rs lines 991-1006: all
but the last property go through object_property_to_binding_property, and
the last property is refined only when it is a spread property. -/
def object_expression_to_object_binding : ObjectPropertyList → EarlyErrorsResult
  | ObjectPropertyList.nil => Except.ok ()
  | ObjectPropertyList.cons p ObjectPropertyList.nil =>
      match p with
      | ObjectProperty.SpreadProperty rest => spread_expression_to_rest_binding rest
      | _ => Except.ok ()
  | ObjectPropertyList.cons p (ObjectPropertyList.cons q tail) =>
      match object_property_to_binding_property p with
      | Except.error err => Except.error err
      | Except.ok () =>
          object_expression_to_object_binding (ObjectPropertyList.cons q tail)

end

-- ===========================================================================
-- Chunked parsing (spec sections 4.1 and 8; exercised by
-- crates/parser/src/tests.rs test_awkward_chunks)
-- ===========================================================================

/-- Modelled from the spec: the incremental parsing pipeline of spec
sections 2 and 4.1. The parsing automaton and the token producer
themselves are not among the checked sources (only the tests in
crates/parser/src/tests.rs exercise them), so the pipeline is modelled as
a deterministic machine that consumes one source character at a time: its
state carries everything the run has accumulated (the producer's buffer
for an unfinished lexical unit, the automaton stack, emitted tokens and
tree nodes), and the state is preserved between calls exactly as the spec
requires of the API boundary. -/
structure ChunkedAutomaton (σ : Type) where
  init : σ
  step : σ → Char → σ

/-- Feeding one chunk: the producer hands the machine one character at a
time, in order. -/
def ChunkedAutomaton.write_chunk {σ : Type} (A : ChunkedAutomaton σ) (state : σ)
    (chunk : List Char) : σ :=
  chunk.foldl A.step state

/-- Feeding a partition of the source: each chunk in order, the state kept
between chunks. -/
def ChunkedAutomaton.run_chunks {σ : Type} (A : ChunkedAutomaton σ)
    (chunks : List (List Char)) : σ :=
  chunks.foldl A.write_chunk A.init

/-- Feeding the whole source as a single unit. -/
def ChunkedAutomaton.run_whole {σ : Type} (A : ChunkedAutomaton σ)
    (source : List Char) : σ :=
  A.write_chunk A.init source

-- ===========================================================================
-- Theorems
-- ===========================================================================

deriving instance DecidableEq for Except

/-- C1: the claim as stated is false on the code: a duplicate
LexicalFunction/LexicalFunction lexical declaration in a Block context does
NOT return Ok (and a duplicate Let/Let does NOT return DuplicateBinding);
both return the stubbed strict-mode NotImplemented error, because
`self.is_strict()?` at early_errors.rs line 582 propagates before the kinds
are compared. -/
theorem block_duplicate_function_not_tolerated :
    ((BlockEarlyErrorsContext.mk
        [("f", DeclarationInfo.mk DeclarationKind.LexicalFunction 0)] []).declare_lex
      "f" DeclarationKind.LexicalFunction 10).fst =
      Except.error (ParseError.NotImplemented
        "strict-mode-only early error is not yet supported") ∧
    ((BlockEarlyErrorsContext.mk
        [("f", DeclarationInfo.mk DeclarationKind.LexicalFunction 0)] []).declare_lex
      "f" DeclarationKind.LexicalFunction 10).fst ≠ Except.ok () ∧
    ((BlockEarlyErrorsContext.mk
        [("x", DeclarationInfo.mk DeclarationKind.Let 0)] []).declare_lex
      "x" DeclarationKind.Let 10).fst ≠
      Except.error (ParseError.DuplicateBinding "x" DeclarationKind.Let 0
        DeclarationKind.Let 10) := by
  refine ⟨rfl, ?_, ?_⟩ <;> decide

/-- C1 (amended): in the Block early-errors context, every declare_lex call
whose name is already lexically declared returns the NotImplemented
strict-mode error, whatever the two declaration kinds; a name that is not
lexically declared but occurs among the var-declared names returns
DuplicateBinding carrying the stored and the new declaration data; in both
cases the context is unchanged. -/
theorem block_declare_lex_duplicate_behavior (ctx : BlockEarlyErrorsContext)
    (name : String) (kind : DeclarationKind) (offset : Nat) :
    (∀ info, getName ctx.lex_names_of_stmt_list name = some info →
      ctx.declare_lex name kind offset =
        (Except.error (ParseError.NotImplemented
          "strict-mode-only early error is not yet supported"), ctx)) ∧
    (getName ctx.lex_names_of_stmt_list name = none →
      ∀ info, getName ctx.var_names_of_stmt_list name = some info →
      ctx.declare_lex name kind offset =
        (Except.error
          (ParseError.DuplicateBinding name info.kind info.offset kind offset), ctx)) := by
  constructor
  · intro info h
    simp [BlockEarlyErrorsContext.declare_lex, BlockEarlyErrorsContext.is_strict, h]
  · intro h1 info h2
    simp [BlockEarlyErrorsContext.declare_lex, h1, h2]

/-- C1 witness: the amended behavior at concrete inputs. -/
theorem block_declare_lex_duplicate_behavior_witness :
    (BlockEarlyErrorsContext.mk
        [("f", DeclarationInfo.mk DeclarationKind.LexicalFunction 0)] []).declare_lex
      "f" DeclarationKind.Let 10 =
      (Except.error (ParseError.NotImplemented
        "strict-mode-only early error is not yet supported"),
       BlockEarlyErrorsContext.mk
        [("f", DeclarationInfo.mk DeclarationKind.LexicalFunction 0)] []) ∧
    (BlockEarlyErrorsContext.mk [] [("v", DeclarationInfo.mk DeclarationKind.Var 3)]).declare_lex
      "v" DeclarationKind.Let 10 =
      (Except.error (ParseError.DuplicateBinding "v" DeclarationKind.Var 3
        DeclarationKind.Let 10),
       BlockEarlyErrorsContext.mk [] [("v", DeclarationInfo.mk DeclarationKind.Var 3)]) :=
  ⟨(block_declare_lex_duplicate_behavior _ "f" DeclarationKind.Let 10).1
      (DeclarationInfo.mk DeclarationKind.LexicalFunction 0) rfl,
   (block_declare_lex_duplicate_behavior
      (BlockEarlyErrorsContext.mk [] [("v", DeclarationInfo.mk DeclarationKind.Var 3)])
      "v" DeclarationKind.Let 10).2
      rfl (DeclarationInfo.mk DeclarationKind.Var 3) rfl⟩

/-- C2: at script level a lexical declaration whose name is already among
the lexically declared or the var-declared names of the body is rejected
with DuplicateBinding (carrying the stored and the new declaration data),
declare_var is symmetrically rejected when the name is lexically declared,
and in particular the script "let x; let x;" is rejected with
DuplicateBinding. -/
theorem script_duplicate_binding_rules (ctx : ScriptEarlyErrorsContext)
    (name : String) (kind : DeclarationKind) (offset : Nat) :
    (∀ info, getName ctx.lex_names_of_body name = some info →
      ctx.declare_lex name kind offset =
        (Except.error
          (ParseError.DuplicateBinding name info.kind info.offset kind offset), ctx)) ∧
    (getName ctx.lex_names_of_body name = none →
      ∀ info, getName ctx.var_names_of_body name = some info →
      ctx.declare_lex name kind offset =
        (Except.error
          (ParseError.DuplicateBinding name info.kind info.offset kind offset), ctx)) ∧
    (∀ info, getName ctx.lex_names_of_body name = some info →
      ctx.declare_var name kind offset =
        (Except.error
          (ParseError.DuplicateBinding name info.kind info.offset kind offset), ctx)) ∧
    (((ScriptEarlyErrorsContext.new.declare_lex "x" DeclarationKind.Let 4).snd.declare_lex
        "x" DeclarationKind.Let 11).fst =
      Except.error (ParseError.DuplicateBinding "x" DeclarationKind.Let 4
        DeclarationKind.Let 11)) := by
  refine ⟨?_, ?_, ?_, rfl⟩
  · intro info h
    simp [ScriptEarlyErrorsContext.declare_lex, h]
  · intro h1 info h2
    simp [ScriptEarlyErrorsContext.declare_lex, h1, h2]
  · intro info h
    simp [ScriptEarlyErrorsContext.declare_var, h]

/-- C2 witness: the script rules at concrete inputs. -/
theorem script_duplicate_binding_rules_witness :
    (ScriptEarlyErrorsContext.mk [("x", DeclarationInfo.mk DeclarationKind.Let 4)] []).declare_lex
      "x" DeclarationKind.Let 11 =
      (Except.error (ParseError.DuplicateBinding "x" DeclarationKind.Let 4
        DeclarationKind.Let 11),
       ScriptEarlyErrorsContext.mk [("x", DeclarationInfo.mk DeclarationKind.Let 4)] []) ∧
    (ScriptEarlyErrorsContext.mk [] [("y", DeclarationInfo.mk DeclarationKind.Var 2)]).declare_lex
      "y" DeclarationKind.Const 9 =
      (Except.error (ParseError.DuplicateBinding "y" DeclarationKind.Var 2
        DeclarationKind.Const 9),
       ScriptEarlyErrorsContext.mk [] [("y", DeclarationInfo.mk DeclarationKind.Var 2)]) ∧
    (ScriptEarlyErrorsContext.mk [("z", DeclarationInfo.mk DeclarationKind.Const 1)] []).declare_var
      "z" DeclarationKind.Var 7 =
      (Except.error (ParseError.DuplicateBinding "z" DeclarationKind.Const 1
        DeclarationKind.Var 7),
       ScriptEarlyErrorsContext.mk [("z", DeclarationInfo.mk DeclarationKind.Const 1)] []) :=
  ⟨(script_duplicate_binding_rules _ "x" DeclarationKind.Let 11).1
      (DeclarationInfo.mk DeclarationKind.Let 4) rfl,
   (script_duplicate_binding_rules
      (ScriptEarlyErrorsContext.mk [] [("y", DeclarationInfo.mk DeclarationKind.Var 2)])
      "y" DeclarationKind.Const 9).2.1
      rfl (DeclarationInfo.mk DeclarationKind.Var 2) rfl,
   (script_duplicate_binding_rules _ "z" DeclarationKind.Var 7).2.2.1
      (DeclarationInfo.mk DeclarationKind.Const 1) rfl⟩

/-- C3: evaluation at the failing input. Declaring the catch parameter "x"
at offset 5 and again at offset 10 reports DuplicateBinding whose first
offset is 10 — the offset of the NEW declaration — instead of the stored
offset 5 (early_errors.rs line 1033 passes `offset` where every other
context passes `info.offset`); CatchBlockEarlyErrorsContext::declare_lex
(line 1079) has the same slip. -/
theorem catch_duplicate_binding_offset_eval :
    ((CatchParameterEarlyErrorsContext.new_with_binding_identifier.declare "x" 5).snd.declare
        "x" 10).fst =
      Except.error (ParseError.DuplicateBinding "x" DeclarationKind.CatchParameter 10
        DeclarationKind.CatchParameter 10) ∧
    ((CatchParameterEarlyErrorsContext.new_with_binding_identifier.declare "x" 5).snd.declare
        "x" 10).fst ≠
      Except.error (ParseError.DuplicateBinding "x" DeclarationKind.CatchParameter 5
        DeclarationKind.CatchParameter 10) ∧
    ((CatchBlockEarlyErrorsContext.new
        (CatchParameterEarlyErrorsContext.new_with_binding_identifier.declare "x" 5).snd).declare_lex
        "x" DeclarationKind.Let 10).fst =
      Except.error (ParseError.DuplicateBinding "x" DeclarationKind.CatchParameter 10
        DeclarationKind.Let 10) ∧
    ((CatchBlockEarlyErrorsContext.new
        (CatchParameterEarlyErrorsContext.new_with_binding_identifier.declare "x" 5).snd).declare_lex
        "x" DeclarationKind.Let 10).fst ≠
      Except.error (ParseError.DuplicateBinding "x" DeclarationKind.CatchParameter 5
        DeclarationKind.Let 10) := by
  refine ⟨rfl, ?_, rfl, ?_⟩ <;> decide

/-- C4: a duplicate formal-parameter name is rejected (with DuplicateBinding
carrying the stored and the new declaration data) exactly when the
parameter list is non-simple; in a simple list the duplicate is recorded
and succeeds; a UniqueFormalParameters context always rejects a duplicate
parameter name. -/
theorem formal_parameters_duplicate_policy
    (ctx : FormalParametersEarlyErrorsContext)
    (uctx : UniqueFormalParametersEarlyErrorsContext)
    (name : String) (offset : Nat) (info : DeclarationInfo) :
    (getName ctx.bound_names_of_params name = some info → ctx.is_simple = false →
      ctx.declare name offset =
        (Except.error (ParseError.DuplicateBinding name info.kind info.offset
          DeclarationKind.FormalParameter offset), ctx)) ∧
    (getName ctx.bound_names_of_params name = some info → ctx.is_simple = true →
      ctx.declare name offset =
        (Except.ok (),
          { ctx with bound_names_of_params :=
              insertName ctx.bound_names_of_params name (DeclarationInfo.mk DeclarationKind.FormalParameter offset) })) ∧
    (getName uctx.bound_names_of_params name = some info →
      uctx.declare name offset =
        (Except.error (ParseError.DuplicateBinding name info.kind info.offset
          DeclarationKind.FormalParameter offset), uctx)) := by
  refine ⟨?_, ?_, ?_⟩
  · intro h hs
    simp [FormalParametersEarlyErrorsContext.declare, h, hs]
  · intro h hs
    simp [FormalParametersEarlyErrorsContext.declare, h, hs]
  · intro h
    simp [UniqueFormalParametersEarlyErrorsContext.declare, h]

/-- C4 witness: the parameter policy at concrete inputs. -/
theorem formal_parameters_duplicate_policy_witness :
    (FormalParametersEarlyErrorsContext.mk
        [("a", DeclarationInfo.mk DeclarationKind.FormalParameter 1)] false).declare "a" 4 =
      (Except.error (ParseError.DuplicateBinding "a" DeclarationKind.FormalParameter 1
        DeclarationKind.FormalParameter 4),
       FormalParametersEarlyErrorsContext.mk
        [("a", DeclarationInfo.mk DeclarationKind.FormalParameter 1)] false) ∧
    (FormalParametersEarlyErrorsContext.mk
        [("a", DeclarationInfo.mk DeclarationKind.FormalParameter 1)] true).declare "a" 4 =
      (Except.ok (),
       FormalParametersEarlyErrorsContext.mk
        [("a", DeclarationInfo.mk DeclarationKind.FormalParameter 4)] true) ∧
    (UniqueFormalParametersEarlyErrorsContext.mk
        [("a", DeclarationInfo.mk DeclarationKind.FormalParameter 1)]).declare "a" 4 =
      (Except.error (ParseError.DuplicateBinding "a" DeclarationKind.FormalParameter 1
        DeclarationKind.FormalParameter 4),
       UniqueFormalParametersEarlyErrorsContext.mk
        [("a", DeclarationInfo.mk DeclarationKind.FormalParameter 1)]) :=
  ⟨(formal_parameters_duplicate_policy
      (FormalParametersEarlyErrorsContext.mk
        [("a", DeclarationInfo.mk DeclarationKind.FormalParameter 1)] false)
      UniqueFormalParametersEarlyErrorsContext.new "a" 4
      (DeclarationInfo.mk DeclarationKind.FormalParameter 1)).1 rfl rfl,
   (formal_parameters_duplicate_policy
      (FormalParametersEarlyErrorsContext.mk
        [("a", DeclarationInfo.mk DeclarationKind.FormalParameter 1)] true)
      UniqueFormalParametersEarlyErrorsContext.new "a" 4
      (DeclarationInfo.mk DeclarationKind.FormalParameter 1)).2.1 rfl rfl,
   (formal_parameters_duplicate_policy
      FormalParametersEarlyErrorsContext.new_simple
      (UniqueFormalParametersEarlyErrorsContext.mk
        [("a", DeclarationInfo.mk DeclarationKind.FormalParameter 1)]) "a" 4
      (DeclarationInfo.mk DeclarationKind.FormalParameter 1)).2.2 rfl⟩

/-- C5: in the CatchBlock context a var declaration whose name is bound by
the catch parameter is rejected with DuplicateBinding when the catch
parameter is a destructuring pattern (non-simple); when the parameter is a
simple binding identifier the collision with the parameter is tolerated
and the result is exactly that of declaring the var into the inner block
context. -/
theorem catch_block_var_collision_policy (ctx : CatchBlockEarlyErrorsContext)
    (name : String) (kind : DeclarationKind) (offset : Nat) (info : DeclarationInfo) :
    (getName ctx.param.bound_names_of_catch_param name = some info →
      ctx.param.is_simple = false →
      ctx.declare_var name kind offset =
        (Except.error
          (ParseError.DuplicateBinding name info.kind info.offset kind offset), ctx)) ∧
    (getName ctx.param.bound_names_of_catch_param name = some info →
      ctx.param.is_simple = true →
      ctx.declare_var name kind offset =
        ((ctx.block.declare_var name kind offset).fst,
         { ctx with block := (ctx.block.declare_var name kind offset).snd })) := by
  constructor
  · intro h hs
    simp [CatchBlockEarlyErrorsContext.declare_var, h, hs]
  · intro h hs
    simp [CatchBlockEarlyErrorsContext.declare_var, h, hs]

/-- C5 witness: the catch-parameter var-collision policy at concrete
inputs (a destructured parameter rejects the var, a simple parameter lets
it through into the block context). -/
theorem catch_block_var_collision_policy_witness :
    (CatchBlockEarlyErrorsContext.mk
        (CatchParameterEarlyErrorsContext.mk
          [("e", DeclarationInfo.mk DeclarationKind.CatchParameter 7)] false)
        BlockEarlyErrorsContext.new).declare_var "e" DeclarationKind.Var 20 =
      (Except.error (ParseError.DuplicateBinding "e" DeclarationKind.CatchParameter 7
        DeclarationKind.Var 20),
       CatchBlockEarlyErrorsContext.mk
        (CatchParameterEarlyErrorsContext.mk
          [("e", DeclarationInfo.mk DeclarationKind.CatchParameter 7)] false)
        BlockEarlyErrorsContext.new) ∧
    (CatchBlockEarlyErrorsContext.mk
        (CatchParameterEarlyErrorsContext.mk
          [("e", DeclarationInfo.mk DeclarationKind.CatchParameter 7)] true)
        BlockEarlyErrorsContext.new).declare_var "e" DeclarationKind.Var 20 =
      (Except.ok (),
       CatchBlockEarlyErrorsContext.mk
        (CatchParameterEarlyErrorsContext.mk
          [("e", DeclarationInfo.mk DeclarationKind.CatchParameter 7)] true)
        (BlockEarlyErrorsContext.mk []
          [("e", DeclarationInfo.mk DeclarationKind.Var 20)])) :=
  ⟨(catch_block_var_collision_policy
      (CatchBlockEarlyErrorsContext.mk
        (CatchParameterEarlyErrorsContext.mk
          [("e", DeclarationInfo.mk DeclarationKind.CatchParameter 7)] false)
        BlockEarlyErrorsContext.new)
      "e" DeclarationKind.Var 20
      (DeclarationInfo.mk DeclarationKind.CatchParameter 7)).1 rfl rfl,
   (catch_block_var_collision_policy
      (CatchBlockEarlyErrorsContext.mk
        (CatchParameterEarlyErrorsContext.mk
          [("e", DeclarationInfo.mk DeclarationKind.CatchParameter 7)] true)
        BlockEarlyErrorsContext.new)
      "e" DeclarationKind.Var 20
      (DeclarationInfo.mk DeclarationKind.CatchParameter 7)).2 rfl rfl⟩

/-- Helper for the failure semantics: Block declare_lex either succeeds or
leaves the context untouched. -/
lemma block_declare_lex_ok_or_unchanged (ctx : BlockEarlyErrorsContext) (name : String)
    (kind : DeclarationKind) (offset : Nat) :
    (ctx.declare_lex name kind offset).fst = Except.ok () ∨
    (ctx.declare_lex name kind offset).snd = ctx := by
  rcases h1 : getName ctx.lex_names_of_stmt_list name with _ | info <;>
    rcases h2 : getName ctx.var_names_of_stmt_list name with _ | info2 <;>
      simp [BlockEarlyErrorsContext.declare_lex, BlockEarlyErrorsContext.is_strict, h1, h2]

/-- Helper for the failure semantics: Block declare_var. -/
lemma block_declare_var_ok_or_unchanged (ctx : BlockEarlyErrorsContext) (name : String)
    (kind : DeclarationKind) (offset : Nat) :
    (ctx.declare_var name kind offset).fst = Except.ok () ∨
    (ctx.declare_var name kind offset).snd = ctx := by
  rcases h : getName ctx.lex_names_of_stmt_list name with _ | info <;>
    simp [BlockEarlyErrorsContext.declare_var, h]

/-- Helper for the failure semantics: for-head declare_lex. -/
lemma lexical_for_head_declare_lex_ok_or_unchanged (ctx : LexicalForHeadEarlyErrorsContext)
    (name : String) (kind : DeclarationKind) (offset : Nat) :
    (ctx.declare_lex name kind offset).fst = Except.ok () ∨
    (ctx.declare_lex name kind offset).snd = ctx := by
  rcases h : getName ctx.bound_names_of_decl name with _ | info <;>
    simp [LexicalForHeadEarlyErrorsContext.declare_lex, h]

/-- Helper for the failure semantics: for-body declare_var never fails. -/
lemma internal_for_body_declare_var_ok_or_unchanged (ctx : InternalForBodyEarlyErrorsContext)
    (name : String) (kind : DeclarationKind) (offset : Nat) :
    (ctx.declare_var name kind offset).fst = Except.ok () ∨
    (ctx.declare_var name kind offset).snd = ctx := by
  left
  rfl

/-- Helper for the failure semantics: lexical-for-body declare_var. -/
lemma lexical_for_body_declare_var_ok_or_unchanged (ctx : LexicalForBodyEarlyErrorsContext)
    (name : String) (kind : DeclarationKind) (offset : Nat) :
    (ctx.declare_var name kind offset).fst = Except.ok () ∨
    (ctx.declare_var name kind offset).snd = ctx := by
  rcases h : getName ctx.head.bound_names_of_decl name with _ | info
  · left
    simp [LexicalForBodyEarlyErrorsContext.declare_var, h,
      InternalForBodyEarlyErrorsContext.declare_var]
  · right
    simp [LexicalForBodyEarlyErrorsContext.declare_var, h]

/-- Helper for the failure semantics: CaseBlock declare_lex. -/
lemma case_block_declare_lex_ok_or_unchanged (ctx : CaseBlockEarlyErrorsContext)
    (name : String) (kind : DeclarationKind) (offset : Nat) :
    (ctx.declare_lex name kind offset).fst = Except.ok () ∨
    (ctx.declare_lex name kind offset).snd = ctx := by
  rcases h1 : getName ctx.lex_names_of_case_block name with _ | info <;>
    rcases h2 : getName ctx.var_names_of_case_block name with _ | info2 <;>
      simp [CaseBlockEarlyErrorsContext.declare_lex, CaseBlockEarlyErrorsContext.is_strict,
        h1, h2]

/-- Helper for the failure semantics: CaseBlock declare_var. -/
lemma case_block_declare_var_ok_or_unchanged (ctx : CaseBlockEarlyErrorsContext)
    (name : String) (kind : DeclarationKind) (offset : Nat) :
    (ctx.declare_var name kind offset).fst = Except.ok () ∨
    (ctx.declare_var name kind offset).snd = ctx := by
  rcases h : getName ctx.lex_names_of_case_block name with _ | info <;>
    simp [CaseBlockEarlyErrorsContext.declare_var, h]

/-- Helper for the failure semantics: catch-parameter declare. -/
lemma catch_parameter_declare_ok_or_unchanged (ctx : CatchParameterEarlyErrorsContext)
    (name : String) (offset : Nat) :
    (ctx.declare name offset).fst = Except.ok () ∨
    (ctx.declare name offset).snd = ctx := by
  rcases h : getName ctx.bound_names_of_catch_param name with _ | info <;>
    simp [CatchParameterEarlyErrorsContext.declare, h]

/-- Helper for the failure semantics: CatchBlock declare_lex. -/
lemma catch_block_declare_lex_ok_or_unchanged (ctx : CatchBlockEarlyErrorsContext)
    (name : String) (kind : DeclarationKind) (offset : Nat) :
    (ctx.declare_lex name kind offset).fst = Except.ok () ∨
    (ctx.declare_lex name kind offset).snd = ctx := by
  rcases h : getName ctx.param.bound_names_of_catch_param name with _ | info
  · rcases block_declare_lex_ok_or_unchanged ctx.block name kind offset with hb | hb
    · left
      simp [CatchBlockEarlyErrorsContext.declare_lex, h, hb]
    · right
      simp [CatchBlockEarlyErrorsContext.declare_lex, h, hb]
  · right
    simp [CatchBlockEarlyErrorsContext.declare_lex, h]

/-- Helper for the failure semantics: CatchBlock declare_var. -/
lemma catch_block_declare_var_ok_or_unchanged (ctx : CatchBlockEarlyErrorsContext)
    (name : String) (kind : DeclarationKind) (offset : Nat) :
    (ctx.declare_var name kind offset).fst = Except.ok () ∨
    (ctx.declare_var name kind offset).snd = ctx := by
  have hblock :
      (ctx.block.declare_var name kind offset).fst = Except.ok () ∨
      (ctx.block.declare_var name kind offset).snd = ctx.block :=
    block_declare_var_ok_or_unchanged ctx.block name kind offset
  rcases h : getName ctx.param.bound_names_of_catch_param name with _ | info
  · rcases hblock with hb | hb
    · left
      simp [CatchBlockEarlyErrorsContext.declare_var, h, hb]
    · right
      simp [CatchBlockEarlyErrorsContext.declare_var, h, hb]
  · cases hs : ctx.param.is_simple
    · right
      simp [CatchBlockEarlyErrorsContext.declare_var, h, hs]
    · rcases hblock with hb | hb
      · left
        simp [CatchBlockEarlyErrorsContext.declare_var, h, hs, hb]
      · right
        simp [CatchBlockEarlyErrorsContext.declare_var, h, hs, hb]

/-- Helper for the failure semantics: FormalParameters declare. -/
lemma formal_parameters_declare_ok_or_unchanged (ctx : FormalParametersEarlyErrorsContext)
    (name : String) (offset : Nat) :
    (ctx.declare name offset).fst = Except.ok () ∨
    (ctx.declare name offset).snd = ctx := by
  rcases h : getName ctx.bound_names_of_params name with _ | info
  · left
    simp [FormalParametersEarlyErrorsContext.declare, h]
  · cases hs : ctx.is_simple
    · right
      simp [FormalParametersEarlyErrorsContext.declare, h, hs]
    · left
      simp [FormalParametersEarlyErrorsContext.declare, h, hs]

/-- Helper for the failure semantics: UniqueFormalParameters declare. -/
lemma unique_formal_parameters_declare_ok_or_unchanged
    (ctx : UniqueFormalParametersEarlyErrorsContext) (name : String) (offset : Nat) :
    (ctx.declare name offset).fst = Except.ok () ∨
    (ctx.declare name offset).snd = ctx := by
  rcases h : getName ctx.bound_names_of_params name with _ | info <;>
    simp [UniqueFormalParametersEarlyErrorsContext.declare, h]

/-- Helper for the failure semantics: function-body declare_lex. -/
lemma internal_function_body_declare_lex_ok_or_unchanged
    (ctx : InternalFunctionBodyEarlyErrorsContext)
    (name : String) (kind : DeclarationKind) (offset : Nat) :
    (ctx.declare_lex name kind offset).fst = Except.ok () ∨
    (ctx.declare_lex name kind offset).snd = ctx := by
  rcases h1 : getName ctx.lex_names_of_body name with _ | info <;>
    rcases h2 : getName ctx.var_names_of_body name with _ | info2 <;>
      simp [InternalFunctionBodyEarlyErrorsContext.declare_lex, h1, h2]

/-- Helper for the failure semantics: function-body declare_var. -/
lemma internal_function_body_declare_var_ok_or_unchanged
    (ctx : InternalFunctionBodyEarlyErrorsContext)
    (name : String) (kind : DeclarationKind) (offset : Nat) :
    (ctx.declare_var name kind offset).fst = Except.ok () ∨
    (ctx.declare_var name kind offset).snd = ctx := by
  rcases h : getName ctx.lex_names_of_body name with _ | info <;>
    simp [InternalFunctionBodyEarlyErrorsContext.declare_var, h]

/-- Helper for the failure semantics: FunctionBody declare_lex. -/
lemma function_body_declare_lex_ok_or_unchanged (ctx : FunctionBodyEarlyErrorsContext)
    (name : String) (kind : DeclarationKind) (offset : Nat) :
    (ctx.declare_lex name kind offset).fst = Except.ok () ∨
    (ctx.declare_lex name kind offset).snd = ctx := by
  rcases h : getName ctx.param.bound_names_of_params name with _ | info
  · rcases internal_function_body_declare_lex_ok_or_unchanged ctx.body name kind offset
      with hb | hb
    · left
      simp [FunctionBodyEarlyErrorsContext.declare_lex, h, hb]
    · right
      simp [FunctionBodyEarlyErrorsContext.declare_lex, h, hb]
  · right
    simp [FunctionBodyEarlyErrorsContext.declare_lex, h]

/-- Helper for the failure semantics: FunctionBody declare_var. -/
lemma function_body_declare_var_ok_or_unchanged (ctx : FunctionBodyEarlyErrorsContext)
    (name : String) (kind : DeclarationKind) (offset : Nat) :
    (ctx.declare_var name kind offset).fst = Except.ok () ∨
    (ctx.declare_var name kind offset).snd = ctx := by
  rcases internal_function_body_declare_var_ok_or_unchanged ctx.body name kind offset
    with hb | hb
  · left
    simp [FunctionBodyEarlyErrorsContext.declare_var, hb]
  · right
    simp [FunctionBodyEarlyErrorsContext.declare_var, hb]

/-- Helper for the failure semantics: UniqueFunctionBody declare_lex. -/
lemma unique_function_body_declare_lex_ok_or_unchanged
    (ctx : UniqueFunctionBodyEarlyErrorsContext)
    (name : String) (kind : DeclarationKind) (offset : Nat) :
    (ctx.declare_lex name kind offset).fst = Except.ok () ∨
    (ctx.declare_lex name kind offset).snd = ctx := by
  rcases h : getName ctx.param.bound_names_of_params name with _ | info
  · rcases internal_function_body_declare_lex_ok_or_unchanged ctx.body name kind offset
      with hb | hb
    · left
      simp [UniqueFunctionBodyEarlyErrorsContext.declare_lex, h, hb]
    · right
      simp [UniqueFunctionBodyEarlyErrorsContext.declare_lex, h, hb]
  · right
    simp [UniqueFunctionBodyEarlyErrorsContext.declare_lex, h]

/-- Helper for the failure semantics: UniqueFunctionBody declare_var. -/
lemma unique_function_body_declare_var_ok_or_unchanged
    (ctx : UniqueFunctionBodyEarlyErrorsContext)
    (name : String) (kind : DeclarationKind) (offset : Nat) :
    (ctx.declare_var name kind offset).fst = Except.ok () ∨
    (ctx.declare_var name kind offset).snd = ctx := by
  rcases internal_function_body_declare_var_ok_or_unchanged ctx.body name kind offset
    with hb | hb
  · left
    simp [UniqueFunctionBodyEarlyErrorsContext.declare_var, hb]
  · right
    simp [UniqueFunctionBodyEarlyErrorsContext.declare_var, hb]

/-- Helper for the failure semantics: Script declare_lex. -/
lemma script_declare_lex_ok_or_unchanged (ctx : ScriptEarlyErrorsContext)
    (name : String) (kind : DeclarationKind) (offset : Nat) :
    (ctx.declare_lex name kind offset).fst = Except.ok () ∨
    (ctx.declare_lex name kind offset).snd = ctx := by
  rcases h1 : getName ctx.lex_names_of_body name with _ | info <;>
    rcases h2 : getName ctx.var_names_of_body name with _ | info2 <;>
      simp [ScriptEarlyErrorsContext.declare_lex, h1, h2]

/-- Helper for the failure semantics: Script declare_var. -/
lemma script_declare_var_ok_or_unchanged (ctx : ScriptEarlyErrorsContext)
    (name : String) (kind : DeclarationKind) (offset : Nat) :
    (ctx.declare_var name kind offset).fst = Except.ok () ∨
    (ctx.declare_var name kind offset).snd = ctx := by
  rcases h : getName ctx.lex_names_of_body name with _ | info <;>
    simp [ScriptEarlyErrorsContext.declare_var, h]

/-- Helper for the failure semantics: Module declare_lex. -/
lemma module_declare_lex_ok_or_unchanged (ctx : ModuleEarlyErrorsContext)
    (name : String) (kind : DeclarationKind) (offset : Nat) :
    (ctx.declare_lex name kind offset).fst = Except.ok () ∨
    (ctx.declare_lex name kind offset).snd = ctx := by
  rcases h1 : getName ctx.lex_names_of_item_list name with _ | info <;>
    rcases h2 : getName ctx.var_names_of_item_list name with _ | info2 <;>
      simp [ModuleEarlyErrorsContext.declare_lex, h1, h2]

/-- Helper for the failure semantics: Module declare_var. -/
lemma module_declare_var_ok_or_unchanged (ctx : ModuleEarlyErrorsContext)
    (name : String) (kind : DeclarationKind) (offset : Nat) :
    (ctx.declare_var name kind offset).fst = Except.ok () ∨
    (ctx.declare_var name kind offset).snd = ctx := by
  rcases h : getName ctx.lex_names_of_item_list name with _ | info <;>
    simp [ModuleEarlyErrorsContext.declare_var, h]

/-- Helper for the failure semantics: Module add_exported_name. -/
lemma module_add_exported_name_ok_or_unchanged (ctx : ModuleEarlyErrorsContext)
    (name : String) (offset : Nat) :
    (ctx.add_exported_name name offset).fst = Except.ok () ∨
    (ctx.add_exported_name name offset).snd = ctx := by
  rcases h : getOffset ctx.exported_names_of_item_list name with _ | prev <;>
    simp [ModuleEarlyErrorsContext.add_exported_name, h]

/-- C6: every declare_lex / declare_var / declare / add_exported_name
operation of every rule context either succeeds or returns its context
exactly as it was before the call — the new name is recorded only on the
success path, so no partial mutation survives an error. -/
theorem declare_operations_unchanged_on_failure
    (ctxB : BlockEarlyErrorsContext) (ctxFH : LexicalForHeadEarlyErrorsContext)
    (ctxIFB : InternalForBodyEarlyErrorsContext) (ctxLFB : LexicalForBodyEarlyErrorsContext)
    (ctxCase : CaseBlockEarlyErrorsContext) (ctxCP : CatchParameterEarlyErrorsContext)
    (ctxCB : CatchBlockEarlyErrorsContext) (ctxFP : FormalParametersEarlyErrorsContext)
    (ctxUFP : UniqueFormalParametersEarlyErrorsContext)
    (ctxIB : InternalFunctionBodyEarlyErrorsContext)
    (ctxFB : FunctionBodyEarlyErrorsContext) (ctxUFB : UniqueFunctionBodyEarlyErrorsContext)
    (ctxS : ScriptEarlyErrorsContext) (ctxM : ModuleEarlyErrorsContext)
    (name : String) (kind : DeclarationKind) (offset : Nat) :
    ((ctxB.declare_lex name kind offset).fst = Except.ok () ∨
      (ctxB.declare_lex name kind offset).snd = ctxB) ∧
    ((ctxB.declare_var name kind offset).fst = Except.ok () ∨
      (ctxB.declare_var name kind offset).snd = ctxB) ∧
    ((ctxFH.declare_lex name kind offset).fst = Except.ok () ∨
      (ctxFH.declare_lex name kind offset).snd = ctxFH) ∧
    ((ctxIFB.declare_var name kind offset).fst = Except.ok () ∨
      (ctxIFB.declare_var name kind offset).snd = ctxIFB) ∧
    ((ctxLFB.declare_var name kind offset).fst = Except.ok () ∨
      (ctxLFB.declare_var name kind offset).snd = ctxLFB) ∧
    ((ctxCase.declare_lex name kind offset).fst = Except.ok () ∨
      (ctxCase.declare_lex name kind offset).snd = ctxCase) ∧
    ((ctxCase.declare_var name kind offset).fst = Except.ok () ∨
      (ctxCase.declare_var name kind offset).snd = ctxCase) ∧
    ((ctxCP.declare name offset).fst = Except.ok () ∨
      (ctxCP.declare name offset).snd = ctxCP) ∧
    ((ctxCB.declare_lex name kind offset).fst = Except.ok () ∨
      (ctxCB.declare_lex name kind offset).snd = ctxCB) ∧
    ((ctxCB.declare_var name kind offset).fst = Except.ok () ∨
      (ctxCB.declare_var name kind offset).snd = ctxCB) ∧
    ((ctxFP.declare name offset).fst = Except.ok () ∨
      (ctxFP.declare name offset).snd = ctxFP) ∧
    ((ctxUFP.declare name offset).fst = Except.ok () ∨
      (ctxUFP.declare name offset).snd = ctxUFP) ∧
    ((ctxIB.declare_lex name kind offset).fst = Except.ok () ∨
      (ctxIB.declare_lex name kind offset).snd = ctxIB) ∧
    ((ctxIB.declare_var name kind offset).fst = Except.ok () ∨
      (ctxIB.declare_var name kind offset).snd = ctxIB) ∧
    ((ctxFB.declare_lex name kind offset).fst = Except.ok () ∨
      (ctxFB.declare_lex name kind offset).snd = ctxFB) ∧
    ((ctxFB.declare_var name kind offset).fst = Except.ok () ∨
      (ctxFB.declare_var name kind offset).snd = ctxFB) ∧
    ((ctxUFB.declare_lex name kind offset).fst = Except.ok () ∨
      (ctxUFB.declare_lex name kind offset).snd = ctxUFB) ∧
    ((ctxUFB.declare_var name kind offset).fst = Except.ok () ∨
      (ctxUFB.declare_var name kind offset).snd = ctxUFB) ∧
    ((ctxS.declare_lex name kind offset).fst = Except.ok () ∨
      (ctxS.declare_lex name kind offset).snd = ctxS) ∧
    ((ctxS.declare_var name kind offset).fst = Except.ok () ∨
      (ctxS.declare_var name kind offset).snd = ctxS) ∧
    ((ctxM.declare_lex name kind offset).fst = Except.ok () ∨
      (ctxM.declare_lex name kind offset).snd = ctxM) ∧
    ((ctxM.declare_var name kind offset).fst = Except.ok () ∨
      (ctxM.declare_var name kind offset).snd = ctxM) ∧
    ((ctxM.add_exported_name name offset).fst = Except.ok () ∨
      (ctxM.add_exported_name name offset).snd = ctxM) :=
  ⟨block_declare_lex_ok_or_unchanged ctxB name kind offset,
   block_declare_var_ok_or_unchanged ctxB name kind offset,
   lexical_for_head_declare_lex_ok_or_unchanged ctxFH name kind offset,
   internal_for_body_declare_var_ok_or_unchanged ctxIFB name kind offset,
   lexical_for_body_declare_var_ok_or_unchanged ctxLFB name kind offset,
   case_block_declare_lex_ok_or_unchanged ctxCase name kind offset,
   case_block_declare_var_ok_or_unchanged ctxCase name kind offset,
   catch_parameter_declare_ok_or_unchanged ctxCP name offset,
   catch_block_declare_lex_ok_or_unchanged ctxCB name kind offset,
   catch_block_declare_var_ok_or_unchanged ctxCB name kind offset,
   formal_parameters_declare_ok_or_unchanged ctxFP name offset,
   unique_formal_parameters_declare_ok_or_unchanged ctxUFP name offset,
   internal_function_body_declare_lex_ok_or_unchanged ctxIB name kind offset,
   internal_function_body_declare_var_ok_or_unchanged ctxIB name kind offset,
   function_body_declare_lex_ok_or_unchanged ctxFB name kind offset,
   function_body_declare_var_ok_or_unchanged ctxFB name kind offset,
   unique_function_body_declare_lex_ok_or_unchanged ctxUFB name kind offset,
   unique_function_body_declare_var_ok_or_unchanged ctxUFB name kind offset,
   script_declare_lex_ok_or_unchanged ctxS name kind offset,
   script_declare_var_ok_or_unchanged ctxS name kind offset,
   module_declare_lex_ok_or_unchanged ctxM name kind offset,
   module_declare_var_ok_or_unchanged ctxM name kind offset,
   module_add_exported_name_ok_or_unchanged ctxM name offset⟩

/-- C7: for every token classified Name or NameWithEscape whose value is
"arguments" or "eval", check_binding_identifier returns the stubbed
strict-mode NotImplemented error — never success and never
InvalidIdentifier — because `self.is_strict()?` propagates before either
outcome is reachable. -/
theorem check_binding_identifier_arguments_eval_not_implemented
    (ctx : IdentifierEarlyErrorsContext) (token : Token)
    (hid : token.terminal_id = TerminalId.Name ∨
      token.terminal_id = TerminalId.NameWithEscape)
    (hval : token.value = some "arguments" ∨ token.value = some "eval") :
    ctx.check_binding_identifier token =
      Except.error (ParseError.NotImplemented
        "strict-mode-only early error is not yet supported") := by
  obtain ⟨tid, val, loc⟩ := token
  rcases hid with h | h <;> rcases hval with h2 | h2 <;>
    simp only at h h2 <;> subst h <;> subst h2 <;>
      simp [IdentifierEarlyErrorsContext.check_binding_identifier,
        IdentifierEarlyErrorsContext.is_arguments_identifier,
        IdentifierEarlyErrorsContext.is_eval_identifier,
        IdentifierEarlyErrorsContext.is_strict, tokenValue]

/-- C7 witness: concrete "arguments" and "eval" binding identifiers. -/
theorem check_binding_identifier_arguments_eval_not_implemented_witness :
    IdentifierEarlyErrorsContext.new.check_binding_identifier
      (Token.mk TerminalId.Name (some "arguments") 3) =
      Except.error (ParseError.NotImplemented
        "strict-mode-only early error is not yet supported") ∧
    IdentifierEarlyErrorsContext.new.check_binding_identifier
      (Token.mk TerminalId.NameWithEscape (some "eval") 8) =
      Except.error (ParseError.NotImplemented
        "strict-mode-only early error is not yet supported") :=
  ⟨check_binding_identifier_arguments_eval_not_implemented
      IdentifierEarlyErrorsContext.new (Token.mk TerminalId.Name (some "arguments") 3)
      (Or.inl rfl) (Or.inl rfl),
   check_binding_identifier_arguments_eval_not_implemented
      IdentifierEarlyErrorsContext.new (Token.mk TerminalId.NameWithEscape (some "eval") 8)
      (Or.inr rfl) (Or.inr rfl)⟩

/-- C8: the claim as stated is false on the code: a method definition that
is the FINAL property of an object expression is not refined at all (the
`split_last` traversal of early_error_checker.rs lines 995-1004 only
inspects a trailing spread), so refining `({ m() {} })` into parameter
bindings succeeds instead of yielding ObjectPatternWithMethod. -/
theorem refinement_final_method_definition_not_rejected :
    expression_to_parameter
      (Expression.ObjectExpression
        (ObjectPropertyList.cons ObjectProperty.MethodDefinition ObjectPropertyList.nil)) =
      Except.ok () ∧
    expression_to_parameter
      (Expression.ObjectExpression
        (ObjectPropertyList.cons ObjectProperty.MethodDefinition ObjectPropertyList.nil)) ≠
      Except.error ParseError.ObjectPatternWithMethod := by
  have h :
      expression_to_parameter
        (Expression.ObjectExpression
          (ObjectPropertyList.cons ObjectProperty.MethodDefinition ObjectPropertyList.nil)) =
        Except.ok () := by
    simp [expression_to_parameter, expression_to_binding_no_default,
      object_expression_to_object_binding]
  exact ⟨h, by simp [h]⟩

/-- C8 (amended): the refinement rejects a member-expression assignment
target in parameter-binding position with InvalidParameter, a spread
element in non-final array-pattern position with
ArrayPatternWithNonFinalRest, a spread property in non-final
object-pattern position with ObjectPatternWithNonFinalRest, a method
definition in non-final object-pattern position with
ObjectPatternWithMethod (a method definition that is the final property is
not checked by the refinement), and a non-identifier rest property with
ObjectBindingPatternWithInvalidRest. -/
theorem refinement_rejects_forbidden_shapes (e : Expression) :
    assignment_target_to_binding AssignmentTarget.MemberAssignmentTarget =
      Except.error ParseError.InvalidParameter ∧
    array_init_element_to_parameter (ArrayExpressionElement.SpreadElement e) =
      Except.error ParseError.ArrayPatternWithNonFinalRest ∧
    object_property_to_binding_property (ObjectProperty.SpreadProperty e) =
      Except.error ParseError.ObjectPatternWithNonFinalRest ∧
    object_property_to_binding_property ObjectProperty.MethodDefinition =
      Except.error ParseError.ObjectPatternWithMethod ∧
    (e ≠ Expression.IdentifierExpression →
      spread_expression_to_rest_binding e =
        Except.error ParseError.ObjectBindingPatternWithInvalidRest) := by
  refine ⟨?_, ?_, ?_, ?_, ?_⟩
  · simp [assignment_target_to_binding]
  · simp [array_init_element_to_parameter]
  · simp [object_property_to_binding_property]
  · simp [object_property_to_binding_property]
  · intro h
    cases e <;> first | exact absurd rfl h | simp [spread_expression_to_rest_binding]

/-- C8 witness: the rejected shapes at a concrete non-identifier rest
expression. -/
theorem refinement_rejects_forbidden_shapes_witness :
    array_init_element_to_parameter
      (ArrayExpressionElement.SpreadElement Expression.OtherExpression) =
      Except.error ParseError.ArrayPatternWithNonFinalRest ∧
    spread_expression_to_rest_binding Expression.OtherExpression =
      Except.error ParseError.ObjectBindingPatternWithInvalidRest :=
  ⟨(refinement_rejects_forbidden_shapes Expression.OtherExpression).2.1,
   (refinement_rejects_forbidden_shapes Expression.OtherExpression).2.2.2.2
      (fun h => Expression.noConfusion h)⟩

/-- Feeding two consecutive chunks is feeding their concatenation. -/
lemma write_chunk_append {σ : Type} (A : ChunkedAutomaton σ) (s : σ)
    (c1 c2 : List Char) :
    A.write_chunk s (c1 ++ c2) = A.write_chunk (A.write_chunk s c1) c2 := by
  simp [ChunkedAutomaton.write_chunk, List.foldl_append]

/-- C9: for every source and every partition of it into consecutive chunks,
feeding the chunks in order leaves the machine in exactly the state
reached by feeding the whole source at once — the state carries the
producer's buffering for unfinished lexical units, so every observation of
the run (emitted tokens, resulting tree) is identical as well. -/
theorem chunk_invariance {σ : Type} (A : ChunkedAutomaton σ)
    (chunks : List (List Char)) :
    A.run_chunks chunks = A.run_whole chunks.flatten := by
  have general : ∀ (cs : List (List Char)) (s : σ),
      cs.foldl A.write_chunk s = A.write_chunk s cs.flatten := by
    intro cs
    induction cs with
    | nil =>
        intro s
        rfl
    | cons c rest ih =>
        intro s
        calc (c :: rest).foldl A.write_chunk s
            = rest.foldl A.write_chunk (A.write_chunk s c) := rfl
          _ = A.write_chunk (A.write_chunk s c) rest.flatten := ih _
          _ = A.write_chunk s (c ++ rest.flatten) := (write_chunk_append A s c rest.flatten).symm
          _ = A.write_chunk s (c :: rest).flatten := by simp
  exact general chunks A.init

/-- C10: the function-body contexts never check declare_var against the
formal-parameter names — declare_var is exactly the body context's
verdict, and in particular succeeds for a parameter name that does not
collide with a lexical name of the body — whereas declare_lex of a name
bound by a parameter always returns DuplicateBinding with the stored
parameter data. -/
theorem function_body_parameter_collision_policy
    (ctx : FunctionBodyEarlyErrorsContext) (uctx : UniqueFunctionBodyEarlyErrorsContext)
    (name : String) (kind : DeclarationKind) (offset : Nat) (info : DeclarationInfo) :
    (ctx.declare_var name kind offset =
      ((ctx.body.declare_var name kind offset).fst,
       { ctx with body := (ctx.body.declare_var name kind offset).snd })) ∧
    (getName ctx.param.bound_names_of_params name = some info →
      getName ctx.body.lex_names_of_body name = none →
      ctx.declare_var name kind offset =
        (Except.ok (),
         { ctx with body :=
            { ctx.body with var_names_of_body := insertName ctx.body.var_names_of_body name (DeclarationInfo.mk kind offset) } })) ∧
    (getName ctx.param.bound_names_of_params name = some info →
      ctx.declare_lex name kind offset =
        (Except.error
          (ParseError.DuplicateBinding name info.kind info.offset kind offset), ctx)) ∧
    (uctx.declare_var name kind offset =
      ((uctx.body.declare_var name kind offset).fst,
       { uctx with body := (uctx.body.declare_var name kind offset).snd })) ∧
    (getName uctx.param.bound_names_of_params name = some info →
      getName uctx.body.lex_names_of_body name = none →
      uctx.declare_var name kind offset =
        (Except.ok (),
         { uctx with body :=
            { uctx.body with var_names_of_body := insertName uctx.body.var_names_of_body name (DeclarationInfo.mk kind offset) } })) ∧
    (getName uctx.param.bound_names_of_params name = some info →
      uctx.declare_lex name kind offset =
        (Except.error
          (ParseError.DuplicateBinding name info.kind info.offset kind offset), uctx)) := by
  refine ⟨rfl, ?_, ?_, rfl, ?_, ?_⟩
  · intro _ h2
    simp [FunctionBodyEarlyErrorsContext.declare_var,
      InternalFunctionBodyEarlyErrorsContext.declare_var, h2]
  · intro h
    simp [FunctionBodyEarlyErrorsContext.declare_lex, h]
  · intro _ h2
    simp [UniqueFunctionBodyEarlyErrorsContext.declare_var,
      InternalFunctionBodyEarlyErrorsContext.declare_var, h2]
  · intro h
    simp [UniqueFunctionBodyEarlyErrorsContext.declare_lex, h]

/-- C10 witness: a parameter name redeclared as var succeeds, redeclared
lexically fails, in both function-body context variants. -/
theorem function_body_parameter_collision_policy_witness :
    (FunctionBodyEarlyErrorsContext.new
      (FormalParametersEarlyErrorsContext.mk
        [("p", DeclarationInfo.mk DeclarationKind.FormalParameter 2)] true)).declare_var
      "p" DeclarationKind.Var 9 =
      (Except.ok (),
       FunctionBodyEarlyErrorsContext.mk
        (FormalParametersEarlyErrorsContext.mk
          [("p", DeclarationInfo.mk DeclarationKind.FormalParameter 2)] true)
        (InternalFunctionBodyEarlyErrorsContext.mk []
          [("p", DeclarationInfo.mk DeclarationKind.Var 9)])) ∧
    (FunctionBodyEarlyErrorsContext.new
      (FormalParametersEarlyErrorsContext.mk
        [("p", DeclarationInfo.mk DeclarationKind.FormalParameter 2)] true)).declare_lex
      "p" DeclarationKind.Let 9 =
      (Except.error (ParseError.DuplicateBinding "p" DeclarationKind.FormalParameter 2
        DeclarationKind.Let 9),
       FunctionBodyEarlyErrorsContext.new
        (FormalParametersEarlyErrorsContext.mk
          [("p", DeclarationInfo.mk DeclarationKind.FormalParameter 2)] true)) ∧
    (UniqueFunctionBodyEarlyErrorsContext.new
      (UniqueFormalParametersEarlyErrorsContext.mk
        [("p", DeclarationInfo.mk DeclarationKind.FormalParameter 2)])).declare_var
      "p" DeclarationKind.Var 9 =
      (Except.ok (),
       UniqueFunctionBodyEarlyErrorsContext.mk
        (UniqueFormalParametersEarlyErrorsContext.mk
          [("p", DeclarationInfo.mk DeclarationKind.FormalParameter 2)])
        (InternalFunctionBodyEarlyErrorsContext.mk []
          [("p", DeclarationInfo.mk DeclarationKind.Var 9)])) ∧
    (UniqueFunctionBodyEarlyErrorsContext.new
      (UniqueFormalParametersEarlyErrorsContext.mk
        [("p", DeclarationInfo.mk DeclarationKind.FormalParameter 2)])).declare_lex
      "p" DeclarationKind.Let 9 =
      (Except.error (ParseError.DuplicateBinding "p" DeclarationKind.FormalParameter 2
        DeclarationKind.Let 9),
       UniqueFunctionBodyEarlyErrorsContext.new
        (UniqueFormalParametersEarlyErrorsContext.mk
          [("p", DeclarationInfo.mk DeclarationKind.FormalParameter 2)])) :=
  ⟨(function_body_parameter_collision_policy
      (FunctionBodyEarlyErrorsContext.new
        (FormalParametersEarlyErrorsContext.mk
          [("p", DeclarationInfo.mk DeclarationKind.FormalParameter 2)] true))
      (UniqueFunctionBodyEarlyErrorsContext.new UniqueFormalParametersEarlyErrorsContext.new)
      "p" DeclarationKind.Var 9
      (DeclarationInfo.mk DeclarationKind.FormalParameter 2)).2.1 rfl rfl,
   (function_body_parameter_collision_policy
      (FunctionBodyEarlyErrorsContext.new
        (FormalParametersEarlyErrorsContext.mk
          [("p", DeclarationInfo.mk DeclarationKind.FormalParameter 2)] true))
      (UniqueFunctionBodyEarlyErrorsContext.new UniqueFormalParametersEarlyErrorsContext.new)
      "p" DeclarationKind.Let 9
      (DeclarationInfo.mk DeclarationKind.FormalParameter 2)).2.2.1 rfl,
   (function_body_parameter_collision_policy
      (FunctionBodyEarlyErrorsContext.new FormalParametersEarlyErrorsContext.new_simple)
      (UniqueFunctionBodyEarlyErrorsContext.new
        (UniqueFormalParametersEarlyErrorsContext.mk
          [("p", DeclarationInfo.mk DeclarationKind.FormalParameter 2)]))
      "p" DeclarationKind.Var 9
      (DeclarationInfo.mk DeclarationKind.FormalParameter 2)).2.2.2.2.1 rfl rfl,
   (function_body_parameter_collision_policy
      (FunctionBodyEarlyErrorsContext.new FormalParametersEarlyErrorsContext.new_simple)
      (UniqueFunctionBodyEarlyErrorsContext.new
        (UniqueFormalParametersEarlyErrorsContext.mk
          [("p", DeclarationInfo.mk DeclarationKind.FormalParameter 2)]))
      "p" DeclarationKind.Let 9
      (DeclarationInfo.mk DeclarationKind.FormalParameter 2)).2.2.2.2.2 rfl⟩
